import Mathlib

/-!
# Verification of the py-voice-bot ingestion/processing core

A shallow embedding, in Lean 4, of the parts of the `py-voice-bot`
repository that carry algorithmic content:

* `models/vk_update.py` — heterogeneous update-to-message extraction;
* `services/long_poll_service.py` — the long-poll session state machine;
* `services/voice_service.py` — the deterministic text-markup pipeline
  (pause and stress-mark rewriting, cleaning, truncation);
* `app.py`, `controllers/message_controller.py`,
  `controllers/admin_controller.py`, `services/database_service.py` —
  message dispatch, authorization, and the user store.

Python values flowing through the update pipeline are untyped JSON-ish
data; they are modelled by the inductive `Val`.  Python string
operations (`strip`, `split`, the `re.sub` chains) are re-implemented
character-by-character on `List Char`, faithful to the source regexes
(leftmost, non-overlapping matching; the greedy sub-patterns used in the
source never need backtracking, so maximal munch is exact).
-/

set_option maxRecDepth 8192

namespace VoiceBot

/-- Python `str.startswith`: the first `len(prefix)` characters equal
the prefix. -/
def pyStartsWith (s pre : String) : Bool :=
  s.data.take pre.data.length == pre.data

/-- Untyped values, as delivered by the platform's JSON payloads.
Dicts are association lists (first binding wins, as only well-formed
dicts with distinct keys occur). -/
inductive Val where
  | vInt (n : Int)
  | vStr (s : String)
  | vList (items : List Val)
  | vDict (entries : List (String × Val))

/-- Python truthiness for the values above (`0`, `""`, `[]` and
an empty dict are falsy). -/
def pyTruthy : Val → Bool
  | .vInt n => n != 0
  | .vStr s => s != ""
  | .vList l => !l.isEmpty
  | .vDict d => !d.isEmpty

/-- `d.get(k)` on a Python dict: `none` models Python `None`. -/
def dictGet (d : List (String × Val)) (k : String) : Option Val :=
  List.lookup k d

/-- Python `str.isspace` members relevant to `strip`/`split`
(space, tab, newline, carriage return, vertical tab, form feed). -/
def pyIsSpace (c : Char) : Bool :=
  c = ' ' || c = '\t' || c = '\n' || c = '\r' || c = '\x0b' || c = '\x0c'

/-- Python `str.strip()` on a character list. -/
def pyStripList (l : List Char) : List Char :=
  ((l.dropWhile pyIsSpace).reverse.dropWhile pyIsSpace).reverse

/-- Python `str.strip()`. -/
def pyStrip (s : String) : String :=
  ⟨pyStripList s.data⟩

/-! ## `models/vk_update.py` — `VKUpdate` -/

/-- `VKUpdate` dataclass: the raw positional update row.  In the source
`update_type` is always `update_data[0]` (see
`LongPollService.get_updates`), but the dataclass stores both. -/
structure VKUpdate where
  update_type : Val
  update_data : List Val

/-- Result of `VKUpdate.extract_message`: the dict
`{"user_id": ..., "text": ..., "message_id": ...}`. -/
structure MsgData where
  user_id : Val
  text : String
  message_id : Option Val

/-- `VKUpdate.is_message`: `self.update_type == 4`. -/
def VKUpdate.is_message (u : VKUpdate) : Bool :=
  match u.update_type with
  | .vInt 4 => true
  | _ => false

/-- `VKUpdate.is_outgoing`: flag bit 2 at position 2.  The source
computes `bool(flags & 2)`; a non-integer flags field would raise a
`TypeError` in Python — such rows are outside every theorem below, and
the model returns `false` there. -/
def VKUpdate.is_outgoing (u : VKUpdate) : Bool :=
  if !u.is_message || u.update_data.length < 3 then false
  else
    match u.update_data.get? 2 with
    | some (.vInt flags) => flags.land 2 != 0
    | _ => false

/-- The text-recovery scan of `extract_message` (lines 59–67): walk
`update_data` reversed, take the first string whose `strip` is nonempty
and not a placeholder (`'...'`, `' ... '`, `''`); default `""`. -/
def scanText (l : List Val) : String :=
  match l.reverse.findSome? (fun v =>
    match v with
    | .vStr s =>
        let t := pyStrip s
        if t ≠ "" ∧ t ∉ (["...", " ... ", ""] : List String) then some t else none
    | _ => none) with
  | some t => t
  | none => ""

/-- Python `x or y` on optional values (`dict.get` results): the first
operand when it is present and truthy, the second otherwise. -/
def pyOr (a b : Option Val) : Option Val :=
  match a with
  | some v => if pyTruthy v then some v else b
  | none => b

/-- `VKUpdate.extract_message`.  The keyed branch's
`message_data.get("text", "").strip()` would raise in Python on a
non-string `text` value; the model returns `""` there and every theorem
below constrains `text` to be a string. -/
def VKUpdate.extract_message (u : VKUpdate) : Option MsgData :=
  if !u.is_message || u.update_data.length < 4 then none
  else if u.is_outgoing then none
  else
    let uid_text_mid : Option Val × String × Option Val :=
      match u.update_data.get? 3 with
      | some (.vInt n) =>
          (some (.vInt n), "",
            if u.update_data.length > 1 then u.update_data.get? 1 else none)
      | some (.vDict d) =>
          let uid := pyOr (dictGet d "from_id") (dictGet d "user_id")
          let text := match dictGet d "text" with
            | some (.vStr s) => pyStrip s
            | some _ => ""
            | none => ""
          (uid, text, dictGet d "id")
      | _ => (none, "", none)
    match uid_text_mid with
    | (some uid, text0, mid) =>
        if pyTruthy uid then
          let text := if text0 = "" then scanText u.update_data else text0
          some ⟨uid, text, mid⟩
        else none
    | (none, _, _) => none

/-! ## `services/long_poll_service.py` — `LongPollService`

The mutable fields `self.ts / self.server / self.key` become an explicit
state record.  The transport (`vk_api.get_long_poll_server` and the
long-poll HTTP GET) is passed in as explicit outcomes, making
`get_updates` a pure function of state and environment.  `Except Unit`
models a raised Python exception. -/

/-- The session fields of `LongPollService` (all start as `None`). -/
structure LPState where
  ts : Option Val
  server : Option Val
  key : Option Val

/-- A successful `vk_api.get_long_poll_server` response
(`result["server"] / result["key"] / result["ts"]`). -/
structure InitData where
  server : Val
  key : Val
  ts : Val

/-- Outcome of the long-poll HTTP request in `get_updates`:
a parsed JSON dict, a `requests` timeout, or any other network error. -/
inductive FetchOutcome where
  | ok (data : List (String × Val))
  | timeout
  | netError

/-- `LongPollService._initialize` (lines 31–40): on transport success
set all three fields from the response; on transport failure log and
re-raise (the fields keep their previous values, and the exception is
the caller's problem — modelled by `.error`). -/
def lpBootstrap (transport : Except Unit InitData) : Except Unit LPState :=
  match transport with
  | .ok i => .ok { server := some i.server, key := some i.key, ts := some i.ts }
  | .error _ => .error ()

/-- Python truthiness of an optional field (`not self.server` is true
for both `None` and falsy values such as `""`). -/
def truthyOpt : Option Val → Bool
  | some v => pyTruthy v
  | none => false

/-- `LongPollService.get_updates` (lines 42–89).

* Line 48–49 (outside the `try`): if `server`/`key` are falsy or `ts` is
  `None`, call `_initialize` — an exception here propagates.
* Inside the `try`: `failed == 1` adopts `data["ts"]` and returns `[]`;
  `failed in [2, 3]` calls `_initialize()` and returns `[]` — note that
  an exception raised by this re-initialization is caught by the
  blanket `except Exception` at line 87, which returns `[]`;
  otherwise adopt `data["ts"]`, and convert each entry of
  `data.get("updates", [])` that is a nonempty list into a `VKUpdate`.
* A missing `"ts"` key raises `KeyError`, again caught at line 87.
* Timeouts and other network errors return `[]` with state unchanged. -/
def get_updates (st : LPState) (initTransport reinitTransport : Except Unit InitData)
    (fetch : FetchOutcome) : Except Unit (LPState × List VKUpdate) := do
  let st ←
    if !truthyOpt st.server || !truthyOpt st.key || st.ts.isNone then
      lpBootstrap initTransport
    else .ok st
  match fetch with
  | .timeout => .ok (st, [])
  | .netError => .ok (st, [])
  | .ok data =>
    match dictGet data "failed" with
    | some (.vInt 1) =>
        match dictGet data "ts" with
        | some t => .ok ({ st with ts := some t }, [])
        | none => .ok (st, [])
    | some (.vInt 2) | some (.vInt 3) =>
        match lpBootstrap reinitTransport with
        | .ok st2 => .ok (st2, [])
        | .error _ => .ok (st, [])
    | _ =>
        match dictGet data "ts" with
        | none => .ok (st, [])
        | some t =>
          let st := { st with ts := some t }
          let updates :=
            match dictGet data "updates" with
            | some (.vList l) =>
                l.filterMap (fun v =>
                  match v with
                  | .vList (h :: tl) => some (⟨h, h :: tl⟩ : VKUpdate)
                  | _ => none)
            | _ => []
          .ok (st, updates)

/-! ## `services/voice_service.py` — the text pipeline

Each `re.sub` pass is embedded as a character scanner: at every
position it attempts the pattern (a matcher returning the replacement
and the remainder after the match), emits the replacement and resumes
after the match on success, or copies one character and moves on —
exactly Python's leftmost, non-overlapping `re.sub` semantics.  The
source's greedy sub-patterns (`\d+`, `\.?`, `\d*`, `\s*`, `[^>]+`,
`\w+`) are all followed by characters disjoint from their own character
classes, so maximal munch reproduces the backtracking matcher exactly.

The scanners run on fuel equal to the input length.  Every matcher
consumes at least one character on success (its remainder is a proper
suffix of its input), so the fuel is never exhausted and the zero-fuel
clause is unreachable. -/

/-- Generic `re.sub` scanner (see section comment). -/
def subScanFuel (try1 : List Char → Option (List Char × List Char)) :
    Nat → List Char → List Char
  | 0, l => l
  | _ + 1, [] => []
  | fuel + 1, c :: rest =>
      match try1 (c :: rest) with
      | some (repl, r) => repl ++ subScanFuel try1 fuel r
      | none => c :: subScanFuel try1 fuel rest

/-- Run a `re.sub` pass over a whole string. -/
def subScan (try1 : List Char → Option (List Char × List Char))
    (l : List Char) : List Char :=
  subScanFuel try1 l.length l

/-- Value of a digit string, most significant first. -/
def digitsToNat (l : List Char) : Nat :=
  l.foldl (fun acc c => acc * 10 + (c.toNat - '0'.toNat)) 0

/-- The decimal reading of a duration string of the shape the source's
groups capture (`\d+\.?\d*`): the result `(num, k)` stands for the
exact rational `num / 10 ^ k`.  Python `float()` accepts more shapes
(exponents, `inf`, underscores), but the groups never produce those;
the rounding of this decimal value to an IEEE binary64 double — which
is what `float()` returns — is performed by `floatVal` below. -/
def parseDuration (s : String) : Option (ℕ × ℕ) :=
  let l := s.data
  let intPart := l.takeWhile Char.isDigit
  let rest := l.dropWhile Char.isDigit
  if intPart.isEmpty then none
  else
    match rest with
    | [] => some (digitsToNat intPart, 0)
    | '.' :: frac =>
        if frac.all Char.isDigit then
          some (digitsToNat (intPart ++ frac), frac.length)
        else none
    | _ => none

/-- `time_str.rstrip('s')`: drop trailing `'s'` characters. -/
def pyRstripS (s : String) : String :=
  ⟨(s.data.reverse.dropWhile (· = 's')).reverse⟩

/-- Number of binary digits of `n` (`0` for `0`).  The first argument
is fuel; `bitLen` supplies `n` itself, which bounds the recursion
depth `⌊log₂ n⌋ + 1`. -/
def bitLenAux : ℕ → ℕ → ℕ
  | 0, _ => 0
  | fuel + 1, n => if n = 0 then 0 else bitLenAux fuel (n / 2) + 1

/-- Number of binary digits of `n`: `2 ^ (bitLen n - 1) ≤ n < 2 ^ bitLen n`
for `n > 0`. -/
def bitLen (n : ℕ) : ℕ :=
  bitLenAux n n

/-- Decides `2 ^ t ≤ num / den` over the exact rationals
(`num, den > 0`), for an integer exponent `t`. -/
def zpow2Le (num den : ℕ) (t : ℤ) : Bool :=
  if 0 ≤ t then den * 2 ^ t.toNat ≤ num else den ≤ num * 2 ^ (-t).toNat

/-- IEEE 754 binary64 value of the decimal `num / 10 ^ k`, as a dyadic
pair `(m, e)` standing for `m * 2 ^ e`: the 53-bit significand is
obtained by round-to-nearest, ties to even — exactly what CPython's
`float()` computes on such strings.  Exponent clamping (subnormals,
overflow to infinity) is not modelled: it only alters values at
magnitudes below `2^-1021` or above `2^1024`, and on those the
comparisons against `0.3` and `0.7` made by the pause rules are
unaffected. -/
def floatVal (num k : ℕ) : ℕ × ℤ :=
  if num = 0 then (0, 0)
  else
    let den := 10 ^ k
    let dlt : ℤ := (bitLen num : ℤ) - (bitLen den : ℤ)
    let L : ℤ := if zpow2Le num den dlt then dlt else dlt - 1
    let e : ℤ := L - 52
    let N := if 0 ≤ e then num else num * 2 ^ (-e).toNat
    let D := if 0 ≤ e then den * 2 ^ e.toNat else den
    let m0 := N / D
    let r := N % D
    let m :=
      if D < 2 * r then m0 + 1
      else if 2 * r < D then m0
      else if m0 % 2 = 0 then m0 else m0 + 1
    (m, e)

/-- `x ≤ y` on dyadic values `(m, e) ↦ m * 2 ^ e`. -/
def dyadicLe (x y : ℕ × ℤ) : Bool :=
  if y.2 ≤ x.2 then x.1 * 2 ^ (x.2 - y.2).toNat ≤ y.1
  else x.1 ≤ y.1 * 2 ^ (y.2 - x.2).toNat

/-- The `replace_break` closure in `process_pauses` (lines 72–83):
strip a trailing unit suffix, parse, and map the duration to
punctuation; unparsable durations default to comma+space.
`seconds <= 0.3` compares the binary64 value of the parsed string with
the binary64 value of the literal `0.3` (`floatVal 3 1`), and likewise
for `0.7` — IEEE double comparison, not exact decimal comparison, so
e.g. `"0.30000000000000001"` still lands in the comma branch. -/
def replace_break (timeStr : String) : String :=
  match parseDuration (pyRstripS timeStr) with
  | some (num, k) =>
      if dyadicLe (floatVal num k) (floatVal 3 1) then ", "
      else if dyadicLe (floatVal num k) (floatVal 7 1) then "; "
      else ". "
  | none => ", "

/-- The `replace_timed_pause` closure in `process_pauses`
(lines 88–99): same binary64 duration-to-punctuation thresholds, no
unit strip. -/
def replace_timed_pause (timeStr : String) : String :=
  match parseDuration timeStr with
  | some (num, k) =>
      if dyadicLe (floatVal num k) (floatVal 3 1) then ", "
      else if dyadicLe (floatVal num k) (floatVal 7 1) then "; "
      else ". "
  | none => ", "

/-- Matcher for `\|(\d+\.?\d*)\|` (the timed-pause token). -/
def matchTimed : List Char → Option (List Char × List Char)
  | '|' :: rest =>
      let ds := rest.takeWhile Char.isDigit
      let r1 := rest.dropWhile Char.isDigit
      if ds.isEmpty then none
      else
        match r1 with
        | '|' :: r2 => some ((replace_timed_pause ⟨ds⟩).data, r2)
        | '.' :: r2 =>
            let ds2 := r2.takeWhile Char.isDigit
            let r3 := r2.dropWhile Char.isDigit
            match r3 with
            | '|' :: r4 => some ((replace_timed_pause ⟨ds ++ '.' :: ds2⟩).data, r4)
            | _ => none
        | _ => none
  | _ => none

/-- Case-insensitive literal match (pattern given in lowercase);
returns the remainder.  Models `re.IGNORECASE` on the source's ASCII
literals via ASCII case folding. -/
def expectCI : List Char → List Char → Option (List Char)
  | [], l => some l
  | p :: ps, c :: cs => if c.toLower = p then expectCI ps cs else none
  | _ :: _, [] => none

/-- Matcher for `<break\s+time=["\']?(\d+\.?\d*)\s*s["\']?\s*/>`
(case-insensitive), replaced through `replace_break`. -/
def matchBreak (l : List Char) : Option (List Char × List Char) :=
  match l with
  | '<' :: r0 =>
    match expectCI ['b', 'r', 'e', 'a', 'k'] r0 with
    | none => none
    | some r1 =>
      match r1 with
      | c :: _ =>
        if pyIsSpace c then
          match expectCI ['t', 'i', 'm', 'e', '='] (r1.dropWhile pyIsSpace) with
          | none => none
          | some r3 =>
            let r4 := match r3 with
              | q :: rr => if q = '"' || q = '\'' then rr else r3
              | [] => r3
            let ds := r4.takeWhile Char.isDigit
            let r5 := r4.dropWhile Char.isDigit
            if ds.isEmpty then none
            else
              let gr6 : List Char × List Char :=
                match r5 with
                | '.' :: r5a => (ds ++ '.' :: r5a.takeWhile Char.isDigit, r5a.dropWhile Char.isDigit)
                | _ => (ds, r5)
              match gr6.2.dropWhile pyIsSpace with
              | s :: r8 =>
                if s.toLower = 's' then
                  let r9 := match r8 with
                    | q :: rr => if q = '"' || q = '\'' then rr else r8
                    | [] => r8
                  match r9.dropWhile pyIsSpace with
                  | '/' :: '>' :: r11 => some ((replace_break ⟨gr6.1⟩).data, r11)
                  | _ => none
                else none
              | [] => none
        else none
      | [] => none
  | _ => none

/-- Matcher for `\|\|\|`. -/
def matchTriple : List Char → Option (List Char × List Char)
  | '|' :: '|' :: '|' :: r => some (['.', ' '], r)
  | _ => none

/-- Matcher for `\|\|`. -/
def matchDouble : List Char → Option (List Char × List Char)
  | '|' :: '|' :: r => some ([';', ' '], r)
  | _ => none

/-- The single-pipe pass `(?<!\|)\|(?!\|)` → `', '`: a pipe is replaced
only when the neighbouring characters of the original text are not
pipes.  The first argument tracks whether the previous original
character was a pipe. -/
def pipe1Aux : Bool → List Char → List Char
  | _, [] => []
  | prev, '|' :: rest =>
      if !prev && !(rest.head? == some '|') then ',' :: ' ' :: pipe1Aux true rest
      else '|' :: pipe1Aux true rest
  | _, c :: rest => c :: pipe1Aux false rest

/-- `VoiceService.process_pauses` (lines 56–114): the five ordered
rewrite passes — break tags, timed-pause tokens, `|||`, `||`, then
isolated `|`. -/
def process_pauses (text : String) : String :=
  let t1 := subScan matchBreak text.data
  let t2 := subScan matchTimed t1
  let t3 := subScan matchTriple t2
  let t4 := subScan matchDouble t3
  ⟨pipe1Aux false t4⟩

/-- The character class `[а-яА-ЯёЁ\w]` of the stress regexes: ASCII
word characters plus the explicitly listed Cyrillic ranges.  (Python's
`\w` is Unicode-wide; beyond the class written in the source, only the
ASCII part matters to any claim.) -/
def isWordChar (c : Char) : Bool :=
  c.isAlphanum || c = '_' || ('а' ≤ c && c ≤ 'я') || ('А' ≤ c && c ≤ 'Я') || c = 'ё' || c = 'Ё'

/-- Matcher for `([w]+)op([w]+)cl([w]*)` with replacement `\1'\2\3`,
instantiated with `[`/`]` and with the brace pair (the two stress
rewrites of `process_stress_marks`). -/
def matchStress (op cl : Char) (l : List Char) : Option (List Char × List Char) :=
  let w1 := l.takeWhile isWordChar
  let r1 := l.dropWhile isWordChar
  if w1.isEmpty then none
  else
    match r1 with
    | o :: r2 =>
      if o = op then
        let w2 := r2.takeWhile isWordChar
        let r3 := r2.dropWhile isWordChar
        if w2.isEmpty then none
        else
          match r3 with
          | c :: r4 =>
            if c = cl then
              some (w1 ++ '\'' :: (w2 ++ r4.takeWhile isWordChar), r4.dropWhile isWordChar)
            else none
          | [] => none
      else none
    | [] => none

/-- `VoiceService.process_stress_marks` (lines 116–141): bracketed then
braced stress fragments rewritten to apostrophe form. -/
def process_stress_marks (text : String) : String :=
  let t1 := subScan (matchStress '[' ']') text.data
  ⟨subScan (matchStress '\x7b' '\x7d') t1⟩

/-- `VoiceService.process_control_marks` (lines 143–157): pauses first,
then stress marks. -/
def process_control_marks (text : String) : String :=
  process_stress_marks (process_pauses text)

/-- Matcher for `<br\s*/?>` (case-insensitive), replaced by a space. -/
def matchBr (l : List Char) : Option (List Char × List Char) :=
  match l with
  | '<' :: b :: r :: rest =>
    if b.toLower = 'b' && r.toLower = 'r' then
      match rest.dropWhile pyIsSpace with
      | '/' :: '>' :: r4 => some ([' '], r4)
      | '>' :: r4 => some ([' '], r4)
      | _ => none
    else none
  | _ => none

/-- Matcher for `<[^>]+>`, removed. -/
def matchTag (l : List Char) : Option (List Char × List Char) :=
  match l with
  | '<' :: rest =>
      let body := rest.takeWhile (fun c => !(c = '>'))
      if body.isEmpty then none
      else
        match rest.dropWhile (fun c => !(c = '>')) with
        | '>' :: r2 => some ([], r2)
        | _ => none
  | _ => none

/-- Python `str.split()` with no arguments: split on whitespace runs,
dropping empty pieces.  The first argument accumulates the current
token reversed. -/
def pySplitWsAux : List Char → List Char → List String
  | acc, [] => if acc.isEmpty then [] else [⟨acc.reverse⟩]
  | acc, c :: rest =>
      if pyIsSpace c then
        if acc.isEmpty then pySplitWsAux [] rest
        else ⟨acc.reverse⟩ :: pySplitWsAux [] rest
      else pySplitWsAux (c :: acc) rest

/-- Python `str.split()` (no arguments). -/
def pySplitWs (s : String) : List String :=
  pySplitWsAux [] s.data

/-- `VoiceService.clean_text` (lines 159–171): `<br>` to spaces, strip
all other tags, collapse whitespace via `' '.join(text.split())`. -/
def clean_text (text : String) : String :=
  let t1 := subScan matchBr text.data
  let t2 := subScan matchTag t1
  String.intercalate " " (pySplitWs ⟨t2⟩)

/-- The exact string handed to `self.voice.synthesize_wav`, following
`generate_voice_message` → `_text_to_ogg` → `_text_to_wav`
(lines 173–258), or `none` when a `ValueError` is raised before
synthesis (empty cleaned text).  `max_length = 1000` and the trailing
`"..."` are from `_text_to_wav` lines 186–189. -/
def synthesisInput (text : String) : Option String :=
  let text_cleaned := clean_text text
  if text_cleaned = "" then none
  else if pyStrip text_cleaned = "" then none
  else
    let t := process_control_marks text_cleaned
    some (if t.length > 1000 then (⟨t.data.take 1000⟩ : String) ++ "..." else t)

/-! ## `services/database_service.py` — the user store

The SQLite tables become two in-memory lists.  `vk_id` is `UNIQUE`, so
`UPDATE ... WHERE vk_id = ?` touches at most one row; the model maps
over all rows exactly as the SQL does, and `rowcount > 0` becomes "some
row matched". -/

/-- A row of the `users` table (the fields the logic reads). -/
structure UserRow where
  vk_id : Int
  first_name : String
  last_name : String
  gender : Option Int
  is_blocked : Bool

/-- The store: `users` and `admins` tables. -/
structure DB where
  users : List UserRow
  admins : List Int

/-- `DatabaseService.get_user_by_vk_id`. -/
def get_user_by_vk_id (db : DB) (vk_id : Int) : Option UserRow :=
  db.users.find? (fun u => u.vk_id == vk_id)

/-- `DatabaseService.is_user_blocked`: blocked flag of the row, `false`
when the user is unknown. -/
def is_user_blocked (db : DB) (vk_id : Int) : Bool :=
  match get_user_by_vk_id db vk_id with
  | some u => u.is_blocked
  | none => false

/-- `DatabaseService.is_admin`. -/
def is_admin (db : DB) (vk_id : Int) : Bool :=
  db.admins.contains vk_id

/-- `DatabaseService.block_user`: set the flag where `vk_id` matches;
report whether any row matched. -/
def block_user (db : DB) (vk_id : Int) : Bool × DB :=
  (db.users.any (fun u => u.vk_id == vk_id),
   { db with users := db.users.map (fun u =>
      if u.vk_id == vk_id then { u with is_blocked := true } else u) })

/-- `DatabaseService.unblock_user`. -/
def unblock_user (db : DB) (vk_id : Int) : Bool × DB :=
  (db.users.any (fun u => u.vk_id == vk_id),
   { db with users := db.users.map (fun u =>
      if u.vk_id == vk_id then { u with is_blocked := false } else u) })

/-- `DatabaseService.add_user`: `INSERT OR IGNORE` a fresh unblocked
row, or update the name/gender fields of an existing one. -/
def add_user (db : DB) (vk_id : Int) (first_name last_name : String)
    (gender : Option Int) : DB :=
  if db.users.any (fun u => u.vk_id == vk_id) then
    { db with users := db.users.map (fun u =>
        if u.vk_id == vk_id then
          { u with first_name := first_name, last_name := last_name, gender := gender }
        else u) }
  else
    { db with users := db.users ++ [⟨vk_id, first_name, last_name, gender, false⟩] }

/-- `DatabaseService.add_admin` (`INSERT OR IGNORE`). -/
def add_admin (db : DB) (vk_id : Int) : DB :=
  if db.admins.contains vk_id then db
  else { db with admins := db.admins ++ [vk_id] }

/-- `DatabaseService.get_all_users` with the optional equality filters
of `_handle_broadcast` (gender, blocked-state).  The SQL `ORDER BY
registration_date` is not modelled; no caller depends on order. -/
def get_all_users (db : DB) (gender : Option Int) (blocked : Option Bool) : List UserRow :=
  (db.users.filter (fun u =>
    (match gender with | some g => u.gender == some g | none => true) &&
    (match blocked with | some b => u.is_blocked == b | none => true)))

/-- `User.get_full_name`. -/
def get_full_name (u : UserRow) : String :=
  u.first_name ++ " " ++ u.last_name

/-! ## `models/message.py` — `Message` -/

/-- The `Message` dataclass after `__post_init__` (`peer_id` defaults
to `user_id`). -/
structure Message where
  user_id : Int
  text : String
  message_id : Option Val
  peer_id : Int

/-- Construct a `Message` the way `app._process_update` does
(`peer_id` left to `__post_init__`). -/
def Message.make (user_id : Int) (text : String) (message_id : Option Val) : Message :=
  ⟨user_id, text, message_id, user_id⟩

/-- `Message.is_command`: `self.text and self.text.startswith("/")`. -/
def Message.is_command (m : Message) : Bool :=
  m.text ≠ "" && pyStartsWith m.text "/"

/-- Python `str.split(maxsplit=1)`: leading whitespace dropped, first
token, then the remainder after the separating whitespace run (absent
when nothing follows). -/
def pySplitMax1 (s : String) : List String :=
  let l := s.data.dropWhile pyIsSpace
  if l.isEmpty then []
  else
    let tok := l.takeWhile (fun c => !pyIsSpace c)
    let rest := (l.dropWhile (fun c => !pyIsSpace c)).dropWhile pyIsSpace
    if rest.isEmpty then [⟨tok⟩] else [⟨tok⟩, ⟨rest⟩]

/-- `Message.get_command`: first token without the slash. -/
def Message.get_command (m : Message) : Option String :=
  if m.is_command then
    match pySplitMax1 m.text with
    | p :: _ => some ⟨p.data.drop 1⟩
    | [] => none
  else none

/-! ## Controllers (`app.py`, `controllers/*.py`)

Outbound transport calls become an `Effect` trace; the store is
threaded explicitly.  The transport itself is modelled as succeeding
(the claims below quantify over the normal-operation traces), and the
profile lookup of `_ensure_user_exists` is an explicit oracle. -/

/-- One outbound call on the `VKAPIService` collaborator. -/
inductive Effect where
  | send (user_id : Int) (text : String) (attachment : Option String)
  | uploadAudio (peer_id : Int)
  | getUserInfo (user_id : Int)
deriving DecidableEq

/-- The attachment reference returned by
`vk_api.upload_audio_message` — an opaque server-issued token,
modelled by a fixed string. -/
def audioAttachment : String := "audio_message_attachment"

/-- Python `int(s)`: surrounding whitespace ignored, optional sign,
decimal digits.  (Digit-group underscores, also accepted by CPython,
never occur in the inputs of any claim.) -/
def pyParseInt (s : String) : Option Int :=
  match pyStripList s.data with
  | '+' :: ds => if !ds.isEmpty && ds.all Char.isDigit then some (digitsToNat ds : ℕ) else none
  | '-' :: ds => if !ds.isEmpty && ds.all Char.isDigit then some (-(digitsToNat ds : ℕ) : Int) else none
  | ds => if !ds.isEmpty && ds.all Char.isDigit then some (digitsToNat ds : ℕ) else none

/-- ASCII lowering, for `parts[0].lower()` (command names are ASCII). -/
def pyLower (s : String) : String :=
  ⟨s.data.map Char.toLower⟩

/-- Display name used in the admin replies:
`user.get_full_name() if user else f"ID {vk_id}"`. -/
def displayName (db : DB) (vk_id : Int) : String :=
  match get_user_by_vk_id db vk_id with
  | some u => get_full_name u
  | none => "ID " ++ toString vk_id

/-- `AdminController._handle_block` (lines 61–111). -/
def admin_handle_block (db : DB) (m : Message) (args : String) : List Effect × DB :=
  if args = "" then
    ([.send m.user_id ("❌ Использование: /block <vk_id>\n" ++ "Пример: /block 123456789") none], db)
  else
    match pyParseInt (pyStrip args) with
    | none =>
        ([.send m.user_id "❌ Неверный формат ID. Используйте числовое значение." none], db)
    | some vk_id =>
        if vk_id = m.user_id then
          ([.send m.user_id "❌ Нельзя заблокировать самого себя!" none], db)
        else if is_admin db vk_id then
          ([.send m.user_id "❌ Нельзя заблокировать администратора!" none], db)
        else
          match block_user db vk_id with
          | (true, db2) =>
              ([.send m.user_id ("✅ Пользователь " ++ displayName db2 vk_id
                  ++ " (ID: " ++ toString vk_id ++ ") заблокирован") none], db2)
          | (false, db2) =>
              ([.send m.user_id ("❌ Пользователь с ID " ++ toString vk_id ++ " не найден") none], db2)

/-- `AdminController._handle_unblock` (lines 113–147). -/
def admin_handle_unblock (db : DB) (m : Message) (args : String) : List Effect × DB :=
  if args = "" then
    ([.send m.user_id ("❌ Использование: /unblock <vk_id>\n" ++ "Пример: /unblock 123456789") none], db)
  else
    match pyParseInt (pyStrip args) with
    | none =>
        ([.send m.user_id "❌ Неверный формат ID. Используйте числовое значение." none], db)
    | some vk_id =>
        match unblock_user db vk_id with
        | (true, db2) =>
            ([.send m.user_id ("✅ Пользователь " ++ displayName db2 vk_id
                ++ " (ID: " ++ toString vk_id ++ ") разблокирован") none], db2)
        | (false, db2) =>
            ([.send m.user_id ("❌ Пользователь с ID " ++ toString vk_id ++ " не найден") none], db2)

/-- `AdminController._handle_send` (lines 149–196); the transport send
is modelled as succeeding. -/
def admin_handle_send (db : DB) (m : Message) (args : String) : List Effect × DB :=
  if args = "" then
    ([.send m.user_id ("❌ Использование: /send <vk_id> <текст сообщения>\n"
        ++ "Пример: /send 123456789 Привет!") none], db)
  else
    match pySplitMax1 args with
    | target :: text :: _ =>
        (match pyParseInt target with
         | none => ([.send m.user_id "❌ Неверный формат ID. Используйте числовое значение." none], db)
         | some target_vk_id =>
             ([.send target_vk_id text none,
               .send m.user_id ("✅ Сообщение отправлено пользователю " ++ displayName db target_vk_id
                  ++ " (ID: " ++ toString target_vk_id ++ ")") none], db))
    | _ => ([.send m.user_id "❌ Не указан текст сообщения" none], db)

/-- `AdminController._handle_admin` (lines 198–255); `add_admin` and
the sends are modelled as succeeding. -/
def admin_handle_admin (db : DB) (m : Message) (args : String) : List Effect × DB :=
  if args = "" then
    ([.send m.user_id ("❌ Использование: /admin <vk_id>\n" ++ "Пример: /admin 123456789") none], db)
  else
    match pyParseInt (pyStrip args) with
    | none =>
        ([.send m.user_id "❌ Неверный формат ID. Используйте числовое значение." none], db)
    | some vk_id =>
        if is_admin db vk_id then
          ([.send m.user_id ("❌ Пользователь с ID " ++ toString vk_id
              ++ " уже является администратором") none], db)
        else
          let db2 := add_admin db vk_id
          ([.send m.user_id ("✅ Пользователь " ++ displayName db2 vk_id
              ++ " (ID: " ++ toString vk_id ++ ") назначен администратором") none,
            .send vk_id ("👑 Вы назначены администратором бота!\n\n"
              ++ "Доступные команды:\n"
              ++ "/block <vk_id> - заблокировать пользователя\n"
              ++ "/unblock <vk_id> - разблокировать пользователя\n"
              ++ "/send <vk_id> <текст> - отправить сообщение\n"
              ++ "/admin <vk_id> - назначить админа\n"
              ++ "/stats - статистика бота\n"
              ++ "/broadcast <условия> <текст> - рассылка") none], db2)

/-- `AdminController._handle_stats` (lines 257–294). -/
def admin_handle_stats (db : DB) (m : Message) : List Effect × DB :=
  let all_users := get_all_users db none none
  let blocked := (all_users.filter (fun u => u.is_blocked)).length
  let admins := db.admins.length
  let base := "📊 Статистика бота:\n\n"
      ++ "👥 Всего пользователей: " ++ toString all_users.length ++ "\n"
      ++ "🚫 Заблокированных: " ++ toString blocked ++ "\n"
      ++ "✅ Активных: " ++ toString (all_users.length - blocked) ++ "\n"
      ++ "👑 Администраторов: " ++ toString admins ++ "\n\n"
  let males := (all_users.filter (fun u => u.gender == some 2)).length
  let females := (all_users.filter (fun u => u.gender == some 1)).length
  let stats_text :=
    if all_users.isEmpty then base
    else base ++ "👨 Мужчин: " ++ toString males ++ "\n"
        ++ "👩 Женщин: " ++ toString females ++ "\n"
        ++ "❓ Не указано: " ++ toString (all_users.length - males - females) ++ "\n"
  ([.send m.user_id stats_text none], db)

/-- Modelled stand-in for `str(e)` of the `ValueError` raised by
`int(value)` inside `_handle_broadcast`; no claim depends on CPython's
exact exception wording. -/
def pyIntErrorStr (value : String) : String :=
  "invalid literal for int() with base 10: " ++ value

/-- The filter/text parsing loop of `_handle_broadcast`
(lines 322–338): `gender=`/`blocked=`-prefixed tokens set filters (the
last occurrence wins, as with Python dict assignment); every other
token joins the message text; a malformed filter value raises. -/
def parseBroadcastArgs :
    List String → Option Int → Option Bool → List String →
    Except String (Option Int × Option Bool × List String)
  | [], g, b, texts => .ok (g, b, texts)
  | part :: rest, g, b, texts =>
      if pyStartsWith part "gender=" || pyStartsWith part "blocked=" then
        let key : String := ⟨part.data.takeWhile (fun c => !(c = '='))⟩
        let value : String := ⟨(part.data.dropWhile (fun c => !(c = '='))).drop 1⟩
        match pyParseInt value with
        | none => .error (pyIntErrorStr value)
        | some v =>
            if key = "gender" then parseBroadcastArgs rest (some v) b texts
            else parseBroadcastArgs rest g (some (v ≠ 0)) texts
      else parseBroadcastArgs rest g b (texts ++ [part])

/-- `AdminController._handle_broadcast` (lines 296–384); every
recipient send is modelled as succeeding, so the tally is
`sent = len(users)`, `failed = 0`. -/
def admin_handle_broadcast (db : DB) (m : Message) (args : String) : List Effect × DB :=
  if args = "" then
    ([.send m.user_id ("❌ Использование: /broadcast [условия] <текст>\n\n"
        ++ "Условия:\n"
        ++ "gender=1 - только женщины\n"
        ++ "gender=2 - только мужчины\n"
        ++ "blocked=0 - только активные\n"
        ++ "blocked=1 - только заблокированные\n\n"
        ++ "Примеры:\n"
        ++ "/broadcast gender=1 Привет, девушки!\n"
        ++ "/broadcast gender=2 blocked=0 Привет, активные парни!") none], db)
  else
    match parseBroadcastArgs (pySplitWs args) none none [] with
    | .error e => ([.send m.user_id ("❌ Ошибка при выполнении рассылки: " ++ e) none], db)
    | .ok (g, b, text_parts) =>
        if text_parts.isEmpty then
          ([.send m.user_id "❌ Не указан текст для рассылки" none], db)
        else
          let text := String.intercalate " " text_parts
          let users := get_all_users db g b
          if users.isEmpty then
            ([.send m.user_id "❌ Не найдено пользователей по указанным критериям" none], db)
          else
            (users.map (fun u => Effect.send u.vk_id text none)
              ++ [.send m.user_id ("✅ Рассылка завершена!\n\n"
                  ++ "📤 Отправлено: " ++ toString users.length ++ "\n"
                  ++ "❌ Ошибок: 0\n"
                  ++ "👥 Всего получателей: " ++ toString users.length) none], db)

/-- `AdminController.handle_command` (lines 27–59): the authorization
gate, then dispatch on the lowered first token.  The boolean is the
source's return value (`True` when the command was consumed). -/
def admin_handle_command (db : DB) (m : Message) (command : String) :
    Bool × List Effect × DB :=
  if !is_admin db m.user_id then (false, [], db)
  else
    let parts := pySplitMax1 command
    let cmd := match parts with | p :: _ => pyLower p | [] => ""
    let args := match parts with | _ :: a :: _ => a | _ => ""
    if cmd = "block" then (true, admin_handle_block db m args)
    else if cmd = "unblock" then (true, admin_handle_unblock db m args)
    else if cmd = "send" then (true, admin_handle_send db m args)
    else if cmd = "admin" then (true, admin_handle_admin db m args)
    else if cmd = "stats" then (true, admin_handle_stats db m)
    else if cmd = "broadcast" then (true, admin_handle_broadcast db m args)
    else (false, [], db)

/-- Modelled from the spec: `views/message_view.py` is not in the
source tree; the spec fixes only that these are fixed user-visible
replies (welcome, help, empty-text) and an error formatter.  Their
exact wording is immaterial to every claim below. -/
def format_welcome_message : String := "Добро пожаловать"

/-- Modelled from the spec: fixed help reply (see
`format_welcome_message`). -/
def format_help_message : String := "Справка"

/-- Modelled from the spec: the fixed "empty text" reply sent when a
message has empty/whitespace-only text. -/
def format_empty_text_message : String := "Пустой текст"

/-- Modelled from the spec: the synthesis-failure reply built from the
exception text. -/
def format_error_message (e : String) : String := "Ошибка: " ++ e

/-- `MessageController._ensure_user_exists` (lines 34–62): no-op when
the row exists; otherwise one profile fetch, then `add_user` with the
already-defaulted profile fields (`first_name`/`last_name`/`sex`,
defaults applied by the oracle), or nothing when the platform returns
no info. -/
def ensure_user_exists (profile : Int → Option (String × String × Int))
    (db : DB) (user_id : Int) : List Effect × DB :=
  match get_user_by_vk_id db user_id with
  | some _ => ([], db)
  | none =>
      match profile user_id with
      | none => ([.getUserInfo user_id], db)
      | some (fn, ln, sex) => ([.getUserInfo user_id], add_user db user_id fn ln (some sex))

/-- `MessageController._handle_command` (lines 124–148).  The `none`
branch mirrors Python rendering `None` into the f-string; it is
unreachable from `handle_message`, which only calls this on commands. -/
def mc_handle_command (m : Message) : List Effect :=
  match m.get_command with
  | some c =>
      if c = "start" then [.send m.user_id format_welcome_message none]
      else if c = "help" then [.send m.user_id format_help_message none]
      else [.send m.user_id ("❓ Неизвестная команда: /" ++ c
              ++ "\nИспользуйте /help для справки.") none]
  | none => [.send m.user_id ("❓ Неизвестная команда: /None"
              ++ "\nИспользуйте /help для справки.") none]

/-- `MessageController.handle_message` (lines 64–122): ensure the user
row, drop if blocked, commands, the empty-text reply, else the voice
path (upload + send on success, error reply when the voice service
raised on empty cleaned text; synthesis itself modelled as
succeeding). -/
def handle_message (profile : Int → Option (String × String × Int))
    (db : DB) (m : Message) : List Effect × DB :=
  let step1 := ensure_user_exists profile db m.user_id
  let e1 := step1.1
  let db1 := step1.2
  if is_user_blocked db1 m.user_id then (e1, db1)
  else if m.is_command then (e1 ++ mc_handle_command m, db1)
  else if m.text = "" || pyStrip m.text = "" then
    (e1 ++ [.send m.user_id format_empty_text_message none], db1)
  else
    let cleaned := clean_text m.text
    if cleaned = "" then
      (e1 ++ [.send m.user_id (format_error_message "Текст пуст после очистки") none], db1)
    else if pyStrip cleaned = "" then
      (e1 ++ [.send m.user_id (format_error_message "Текст не может быть пустым") none], db1)
    else
      (e1 ++ [.uploadAudio m.peer_id, .send m.user_id "" (some audioAttachment)], db1)

/-- `VKBotApp._process_update`, from the point the `Message` exists
(lines 96–106): try the admin controller first for commands — note,
before any blocked check — then fall through to the message
controller. -/
def process_message (profile : Int → Option (String × String × Int))
    (db : DB) (m : Message) : List Effect × DB :=
  if m.is_command then
    let command_with_args : String :=
      if pyStartsWith m.text "/" then ⟨m.text.data.drop 1⟩ else m.text
    if command_with_args ≠ "" then
      match admin_handle_command db m command_with_args with
      | (true, effs, db2) => (effs, db2)
      | (false, effs, db2) =>
          let step := handle_message profile db2 m
          (effs ++ step.1, step.2)
    else
      handle_message profile db m
  else
    handle_message profile db m

/-- The character shapes the duration group `(\d+\.?\d*)` of both
pause regexes can capture: one or more digits, optionally followed by
a dot and further digits. -/
def isDurationGroup (s : String) : Bool :=
  let ds := s.data.takeWhile Char.isDigit
  let r := s.data.dropWhile Char.isDigit
  !ds.isEmpty && (r.isEmpty || (r.head? == some '.' && (r.drop 1).all Char.isDigit))

/-! ## Helper lemmas -/

theorem dropWhile_eq_self_of_all {p : Char → Bool} {l : List Char}
    (h : ∀ c ∈ l, p c = false) : l.dropWhile p = l := by
  cases l with
  | nil => rfl
  | cons c t => simp [List.dropWhile_cons, h c (by simp)]

theorem rstripS_of_durationGroup {d : String} (h : isDurationGroup d = true) :
    pyRstripS d = d := by
  have hmem : ∀ c ∈ d.data, Char.isDigit c = true ∨ c = '.' := by
    simp only [isDurationGroup, Bool.and_eq_true, Bool.or_eq_true,
      Bool.not_eq_true', List.isEmpty_iff, beq_iff_eq, List.all_eq_true] at h
    intro c hc
    rw [← List.takeWhile_append_dropWhile Char.isDigit d.data] at hc
    rcases List.mem_append.mp hc with h1 | h2
    · exact Or.inl (List.mem_takeWhile_imp h1)
    · rcases h.2 with hr | ⟨hhead, htail⟩
      · rw [hr] at h2; cases h2
      · cases hdw : d.data.dropWhile Char.isDigit with
        | nil => rw [hdw] at h2; cases h2
        | cons a t =>
          rw [hdw] at h2 hhead htail
          simp only [List.head?_cons, Option.some.injEq] at hhead
          rcases List.mem_cons.mp h2 with rfl | h2
          · exact Or.inr hhead
          · exact Or.inl (htail c (by simpa using h2))
  have hns : ∀ c ∈ d.data.reverse, (decide (c = 's')) = false := by
    intro c hc
    rcases hmem c (List.mem_reverse.mp hc) with hd | hd
    · simp only [decide_eq_false_iff_not]
      intro hcs; rw [hcs] at hd; simp [Char.isDigit] at hd
    · rw [hd]; decide
  show String.mk ((d.data.reverse.dropWhile _).reverse) = d
  rw [dropWhile_eq_self_of_all hns, List.reverse_reverse]

theorem blocked_user_exists {db : DB} {u : Int} (h : is_user_blocked db u = true) :
    ∃ row, get_user_by_vk_id db u = some row ∧ row.is_blocked = true := by
  unfold is_user_blocked at h
  cases hfind : get_user_by_vk_id db u with
  | some row => exact ⟨row, rfl, by rwa [hfind] at h⟩
  | none => rw [hfind] at h; cases h

theorem handle_message_blocked (profile : Int → Option (String × String × Int))
    {db : DB} {m : Message} (h : is_user_blocked db m.user_id = true) :
    handle_message profile db m = ([], db) := by
  obtain ⟨row, hrow, _⟩ := blocked_user_exists h
  unfold handle_message ensure_user_exists
  rw [hrow]
  simp [h]

theorem is_user_blocked_add_user (db : DB) (uid : Int) (fn ln : String)
    (g : Option Int) (hnew : get_user_by_vk_id db uid = none) (u : Int) :
    is_user_blocked (add_user db uid fn ln g) u = is_user_blocked db u := by
  have hall : ∀ row ∈ db.users, (row.vk_id == uid) = false := by
    intro row hrow
    have := List.find?_eq_none.mp hnew row hrow
    simpa using this
  have hany : db.users.any (fun r => r.vk_id == uid) = false := by
    rw [List.any_eq_false]
    intro r hr
    simp [hall r hr]
  unfold add_user
  rw [hany]
  simp only [Bool.false_eq_true, if_false]
  unfold is_user_blocked get_user_by_vk_id
  simp only [List.find?_append]
  cases hfind : db.users.find? (fun r => r.vk_id == u) with
  | some r => simp
  | none =>
    simp only [Option.none_or]
    by_cases hu : uid = u
    · subst hu
      simp [List.find?]
    · have : ((⟨uid, fn, ln, g, false⟩ : UserRow).vk_id == u) = false := by
        simpa using hu
      simp [List.find?, this]

theorem ensure_preserves_blocked (profile : Int → Option (String × String × Int))
    (db : DB) (uid u : Int) :
    is_user_blocked (ensure_user_exists profile db uid).2 u = is_user_blocked db u := by
  unfold ensure_user_exists
  cases hrow : get_user_by_vk_id db uid with
  | some r => simp
  | none =>
    cases profile uid with
    | none => simp
    | some p => simpa using is_user_blocked_add_user db uid p.1 p.2.1 (some p.2.2) hrow u

/-! ## The claims -/

/-- C4: extraction of a positional-shape new-message update with sender
id 123, message id 7, and trailing fields `["...", "", "hello"]` yields
`{user_id: 123, text: "hello", message_id: 7}` (the text recovered by
the end-to-front scan over the positional fields, skipping empty
strings and placeholder tokens) for every flags word with the outgoing
bit clear; extraction of the keyed-shape update
`{from_id: 55, text: "hi", id: 9}` yields
`{user_id: 55, text: "hi", message_id: 9}`; and extraction of any
update whose outgoing flag bit is set yields no message. -/
theorem C4_update_extraction :
    (∀ flags : Int, flags.land 2 = 0 →
      VKUpdate.extract_message
        ⟨.vInt 4, [.vInt 4, .vInt 7, .vInt flags, .vInt 123, .vStr "...", .vStr "", .vStr "hello"]⟩
      = some ⟨.vInt 123, "hello", some (.vInt 7)⟩)
  ∧ VKUpdate.extract_message
      ⟨.vInt 4, [.vInt 4, .vInt 0, .vInt 0,
        .vDict [("from_id", .vInt 55), ("text", .vStr "hi"), ("id", .vInt 9)]]⟩
    = some ⟨.vInt 55, "hi", some (.vInt 9)⟩
  ∧ (∀ u : VKUpdate, u.is_outgoing = true → u.extract_message = none) := by
  refine ⟨?_, by rfl, ?_⟩
  · intro flags h
    have hout : (VKUpdate.mk (.vInt 4)
        [.vInt 4, .vInt 7, .vInt flags, .vInt 123, .vStr "...", .vStr "", .vStr "hello"]).is_outgoing
        = false := by
      unfold VKUpdate.is_outgoing
      simp [VKUpdate.is_message, h]
    unfold VKUpdate.extract_message
    rw [hout]
    rfl
  · intro u h
    unfold VKUpdate.extract_message
    rw [h]
    simp

/-- Witness for C4 at concrete inputs: flags `0` for the positional
example, plus a concrete outgoing update
(`flags = 2`, so the outgoing bit is set). -/
theorem C4_update_extraction_witness :
    VKUpdate.extract_message
      ⟨.vInt 4, [.vInt 4, .vInt 7, .vInt 0, .vInt 123, .vStr "...", .vStr "", .vStr "hello"]⟩
    = some ⟨.vInt 123, "hello", some (.vInt 7)⟩
  ∧ VKUpdate.extract_message ⟨.vInt 4, [.vInt 4, .vInt 1, .vInt 2, .vInt 5]⟩ = none :=
  ⟨C4_update_extraction.1 0 (by decide),
   C4_update_extraction.2.2 ⟨.vInt 4, [.vInt 4, .vInt 1, .vInt 2, .vInt 5]⟩ (by rfl)⟩

/-- C5 counterexample: a keyed-shape update whose record text field is
the empty string but which carries a trailing positional string.  The
claim says the resulting text equals the record's text field even when
that field is empty; the code instead falls into the positional scan
(`if not text:` at line 59) and extracts `"sneaky"`. -/
theorem C5_keyed_empty_text_counterexample :
    VKUpdate.extract_message
      ⟨.vInt 4, [.vInt 4, .vInt 1, .vInt 0,
        .vDict [("from_id", .vInt 55), ("text", .vStr ""), ("id", .vInt 9)], .vStr "sneaky"]⟩
      = some ⟨.vInt 55, "sneaky", some (.vInt 9)⟩
  ∧ dictGet [("from_id", Val.vInt 55), ("text", Val.vStr ""), ("id", Val.vInt 9)] "text"
      = some (.vStr "") :=
  ⟨rfl, rfl⟩

/-- C5 (amended): for a keyed-shape update — sender id resolved via
the source's `from_id`-preferring, `user_id`-falling-back chain to a
truthy value, an integer flags word with the outgoing bit clear —
whose record text field strips to a nonempty string, extraction reads
sender id, text and message id directly from the record's named fields
with no scanning of the positional fields (the result does not depend
on `rest`), and the resulting text is the *stripped* record text.
When the record text is absent, empty or whitespace-only, the code
instead falls back to scanning the positional fields (see the
counterexample). -/
theorem C5_keyed_direct_amended (pre1 : Val) (flags : Int) (d : List (String × Val))
    (rest : List Val) (uid : Val) (s : String)
    (hfl : flags.land 2 = 0)
    (huid : pyOr (dictGet d "from_id") (dictGet d "user_id") = some uid)
    (htruthy : pyTruthy uid = true)
    (htext : dictGet d "text" = some (.vStr s)) (hs : pyStrip s ≠ "") :
    VKUpdate.extract_message ⟨.vInt 4, [.vInt 4, pre1, .vInt flags, .vDict d] ++ rest⟩
      = some ⟨uid, pyStrip s, dictGet d "id"⟩ := by
  have hout : (VKUpdate.mk (.vInt 4)
      ([.vInt 4, pre1, .vInt flags, .vDict d] ++ rest)).is_outgoing = false := by
    have hget2 : ([Val.vInt 4, pre1, .vInt flags, .vDict d] ++ rest).get? 2
        = some (.vInt flags) := by
      rw [List.get?_append (by simp)]
      rfl
    unfold VKUpdate.is_outgoing
    simp [VKUpdate.is_message, hget2, hfl]
  unfold VKUpdate.extract_message
  rw [hout]
  have hget : ([Val.vInt 4, pre1, .vInt flags, .vDict d] ++ rest).get? 3
      = some (.vDict d) := by
    rw [List.get?_append (by simp)]
    rfl
  simp only [VKUpdate.is_message, List.length_append, List.length_cons, List.length_nil,
    hget, huid, htext]
  simp [hs, htruthy]

/-- Witness for C5 (amended) at two concrete keyed updates with
whitespace-padded text and a trailing positional string that must be
ignored: one carrying `from_id`, one exercising the `user_id`
fallback. -/
theorem C5_keyed_direct_witness :
    VKUpdate.extract_message
      ⟨.vInt 4, [.vInt 4, .vInt 1, .vInt 0,
        .vDict [("from_id", .vInt 55), ("text", .vStr " hi "), ("id", .vInt 9)], .vStr "x"]⟩
      = some ⟨.vInt 55, pyStrip " hi ", dictGet [("from_id", Val.vInt 55),
        ("text", Val.vStr " hi "), ("id", Val.vInt 9)] "id"⟩
  ∧ VKUpdate.extract_message
      ⟨.vInt 4, [.vInt 4, .vInt 1, .vInt 0,
        .vDict [("user_id", .vInt 77), ("text", .vStr " hi "), ("id", .vInt 9)], .vStr "x"]⟩
      = some ⟨.vInt 77, pyStrip " hi ", dictGet [("user_id", Val.vInt 77),
        ("text", Val.vStr " hi "), ("id", Val.vInt 9)] "id"⟩ :=
  ⟨C5_keyed_direct_amended (.vInt 1) 0 _ [.vStr "x"] (.vInt 55) " hi "
    (by decide) rfl rfl rfl (by decide),
   C5_keyed_direct_amended (.vInt 1) 0 _ [.vStr "x"] (.vInt 77) " hi "
    (by decide) rfl rfl rfl (by decide)⟩

/-- C6: for every duration string the group `(\d+\.?\d*)` of either
rule accepts, the break-tag replacement and the timed-pause replacement
are identical, and both follow the duration map: comma+space when the
binary64 value of the string is at most the double `0.3`
(`dyadicLe (floatVal num k) (floatVal 3 1)` — IEEE comparison, as
`float(time_str) <= 0.3` performs), semicolon+space when it is at most
the double `0.7`, period+space otherwise; an unparsable duration
defaults to comma+space. -/
theorem C6_break_timed_equivalent (d : String) (h : isDurationGroup d = true) :
    replace_break d = replace_timed_pause d
  ∧ (∀ num k : ℕ, parseDuration d = some (num, k) →
      replace_break d =
        (if dyadicLe (floatVal num k) (floatVal 3 1) then ", "
         else if dyadicLe (floatVal num k) (floatVal 7 1) then "; " else ". "))
  ∧ (parseDuration d = none → replace_break d = ", ") := by
  have hstrip := rstripS_of_durationGroup h
  refine ⟨?_, ?_, ?_⟩
  · unfold replace_break replace_timed_pause
    rw [hstrip]
  · intro num k hp
    unfold replace_break
    rw [hstrip, hp]
  · intro hp
    unfold replace_break
    rw [hstrip, hp]

/-- Witness for C6 at the duration string `"0.5"` (the semicolon
branch), plus two double-rounding checks: `"0.30000000000000001"` and
`"0.70000000000000001"` round to the doubles `0.3` and `0.7`
respectively, so they land in the comma and semicolon branches exactly
as CPython's `float` comparison does. -/
theorem C6_break_timed_witness :
    isDurationGroup "0.5" = true
  ∧ replace_break "0.5" = replace_timed_pause "0.5"
  ∧ replace_break "0.5" = "; "
  ∧ replace_break "0.30000000000000001" = ", "
  ∧ replace_break "0.70000000000000001" = "; " :=
  ⟨by rfl, (C6_break_timed_equivalent "0.5" (by rfl)).1,
   by rw [(C6_break_timed_equivalent "0.5" (by rfl)).2.1 5 1 (by rfl)]; decide,
   by decide, by decide⟩

/-- C7: the concrete pipe rewrites — `"a|||b"` to `"a. b"`, `"a||b"`
to `"a; b"`, `"a|b"` to `"a, b"`, and `"a|0.5|b"` to `"a; b"`.  The
fourth equality exhibits the ordering content of the claim: the
timed-pause pass runs before the bare-pipe passes (else `|0.5|` would
decay into single-pipe commas), and the bare-pipe passes run longest
match first (else `"a|||b"` could not produce a period). -/
theorem C7_pipe_rewrites :
    process_pauses "a|||b" = "a. b"
  ∧ process_pauses "a||b" = "a; b"
  ∧ process_pauses "a|b" = "a, b"
  ∧ process_pauses "a|0.5|b" = "a; b" :=
  ⟨rfl, rfl, rfl, rfl⟩

/-- C2: with the session fields live ("Active"), a fetch whose response
carries `failed == 1` leaves `server`/`key` untouched, adopts the
server-supplied cursor, and yields an empty batch; a fetch whose
response carries `failed == 2` or `failed == 3` performs a fresh
bootstrap call, installs the transport-supplied server, key and cursor,
and yields an empty batch for that cycle. -/
theorem C2_failed_codes :
    (∀ (st : LPState) (init reinit : Except Unit InitData)
        (data : List (String × Val)) (t : Val),
      truthyOpt st.server = true → truthyOpt st.key = true → st.ts.isSome = true →
      dictGet data "failed" = some (.vInt 1) → dictGet data "ts" = some t →
      get_updates st init reinit (.ok data) = .ok ({ st with ts := some t }, []))
  ∧ (∀ (st : LPState) (init reinit : Except Unit InitData)
        (data : List (String × Val)) (f : Int) (i : InitData),
      truthyOpt st.server = true → truthyOpt st.key = true → st.ts.isSome = true →
      dictGet data "failed" = some (.vInt f) → (f = 2 ∨ f = 3) →
      reinit = .ok i →
      get_updates st init reinit (.ok data)
        = .ok (⟨some i.ts, some i.server, some i.key⟩, [])) := by
  constructor
  · intro st init reinit data t hs hk hts hf hty
    unfold get_updates
    have hnn : st.ts.isNone = false := by
      cases h : st.ts with
      | none => rw [h] at hts; cases hts
      | some v => rfl
    simp [hs, hk, hnn, Bind.bind, Except.bind, hf, hty]
  · intro st init reinit data f i hs hk hts hf hf23 hre
    unfold get_updates
    have hnn : st.ts.isNone = false := by
      cases h : st.ts with
      | none => rw [h] at hts; cases hts
      | some v => rfl
    subst hre
    rcases hf23 with rfl | rfl <;>
      simp [hs, hk, hnn, Bind.bind, Except.bind, hf, lpBootstrap]

/-- Witness for C2: both failure codes at concrete states and
responses. -/
theorem C2_failed_codes_witness :
    get_updates ⟨some (.vStr "10"), some (.vStr "srv"), some (.vStr "k")⟩
      (.error ()) (.error ()) (.ok [("failed", .vInt 1), ("ts", .vStr "11")])
    = .ok (⟨some (.vStr "11"), some (.vStr "srv"), some (.vStr "k")⟩, [])
  ∧ get_updates ⟨some (.vStr "10"), some (.vStr "srv"), some (.vStr "k")⟩
      (.error ()) (.ok ⟨.vStr "s2", .vStr "k2", .vStr "t2"⟩) (.ok [("failed", .vInt 3)])
    = .ok (⟨some (.vStr "t2"), some (.vStr "s2"), some (.vStr "k2")⟩, []) :=
  ⟨C2_failed_codes.1 ⟨some (.vStr "10"), some (.vStr "srv"), some (.vStr "k")⟩
      (.error ()) (.error ()) [("failed", .vInt 1), ("ts", .vStr "11")] (.vStr "11")
      rfl rfl rfl rfl rfl,
   C2_failed_codes.2 ⟨some (.vStr "10"), some (.vStr "srv"), some (.vStr "k")⟩
      (.error ()) (.ok ⟨.vStr "s2", .vStr "k2", .vStr "t2"⟩) [("failed", .vInt 3)] 3
      ⟨.vStr "s2", .vStr "k2", .vStr "t2"⟩ rfl rfl rfl rfl (Or.inr rfl) rfl⟩

/-- C3 counterexample: a `failed: 3` cycle whose re-initialization
transport call fails.  The claim says this fatal error propagates out
of the fetch; in the code the `raise` from `_initialize` is caught by
the blanket `except Exception` at line 87, and the fetch returns
normally with an empty batch and unchanged session fields. -/
theorem C3_reinit_swallowed_counterexample :
    get_updates ⟨some (.vStr "10"), some (.vStr "srv"), some (.vStr "k")⟩
        (.ok ⟨.vStr "s0", .vStr "k0", .vStr "t0"⟩) (.error ()) (.ok [("failed", .vInt 3)])
      = .ok (⟨some (.vStr "10"), some (.vStr "srv"), some (.vStr "k")⟩, [])
  ∧ get_updates ⟨some (.vStr "10"), some (.vStr "srv"), some (.vStr "k")⟩
        (.ok ⟨.vStr "s0", .vStr "k0", .vStr "t0"⟩) (.error ()) (.ok [("failed", .vInt 3)])
      ≠ .error () := by
  refine ⟨rfl, ?_⟩
  intro h
  rw [show get_updates ⟨some (.vStr "10"), some (.vStr "srv"), some (.vStr "k")⟩
        (.ok ⟨.vStr "s0", .vStr "k0", .vStr "t0"⟩) (.error ()) (.ok [("failed", .vInt 3)])
      = .ok (⟨some (.vStr "10"), some (.vStr "srv"), some (.vStr "k")⟩, []) from rfl] at h
  exact Except.noConfusion h

/-- C3 (amended): a re-initialization failure during a `failed: 2/3`
cycle is caught by the fetch's blanket exception handler and yields an
empty batch with unchanged session fields — it does not propagate.
A bootstrap failure propagates out of fetch only on the
credentials-unset path at the start of `get_updates` (and from the
constructor, which runs the same `_initialize`). -/
theorem C3_reinit_error_amended :
    (∀ (st : LPState) (init : Except Unit InitData)
        (data : List (String × Val)) (f : Int),
      truthyOpt st.server = true → truthyOpt st.key = true → st.ts.isSome = true →
      dictGet data "failed" = some (.vInt f) → (f = 2 ∨ f = 3) →
      get_updates st init (.error ()) (.ok data) = .ok (st, []))
  ∧ (∀ (st : LPState) (reinit : Except Unit InitData) (fetch : FetchOutcome),
      (truthyOpt st.server = false ∨ truthyOpt st.key = false ∨ st.ts = none) →
      get_updates st (.error ()) reinit fetch = .error ()) := by
  constructor
  · intro st init data f hs hk hts hf hf23
    unfold get_updates
    have hnn : st.ts.isNone = false := by
      cases h : st.ts with
      | none => rw [h] at hts; cases hts
      | some v => rfl
    rcases hf23 with rfl | rfl <;>
      simp [hs, hk, hnn, Bind.bind, Except.bind, hf, lpBootstrap]
  · intro st reinit fetch hcond
    unfold get_updates
    have : (!truthyOpt st.server || !truthyOpt st.key || st.ts.isNone) = true := by
      rcases hcond with h | h | h <;> simp [h]
    rw [this]
    rfl

/-- C1 counterexample: a blocked sender who is also a registered admin
sends the command `"/block"`.  The claim says a blocked sender's
message is dropped with zero outbound calls, the blocked check coming
before any command parsing; but `VKBotApp._process_update` hands
commands to the admin controller *before* the message controller's
blocked check, so this blocked sender receives the `/block` usage
reply — a nonempty outbound trace. -/
theorem C1_blocked_admin_counterexample :
    is_user_blocked ⟨[⟨1, "Иван", "Иванов", none, true⟩], [1]⟩ 1 = true
  ∧ (process_message (fun _ => none) ⟨[⟨1, "Иван", "Иванов", none, true⟩], [1]⟩
      (Message.make 1 "/block" none)).1
    = [.send 1 ("❌ Использование: /block <vk_id>\n" ++ "Пример: /block 123456789") none]
  ∧ (process_message (fun _ => none) ⟨[⟨1, "Иван", "Иванов", none, true⟩], [1]⟩
      (Message.make 1 "/block" none)).1 ≠ [] :=
  ⟨rfl, rfl, by decide⟩

/-- C1 (amended): admin-gated command handling runs *before* the
blocked check, so the drop guarantee holds for every blocked sender who
is not an authorized admin: processing produces no outbound call and
leaves the store unchanged (the blocked check still precedes general
command handling, the empty-text reply and the synthesis path).  A
blocked sender who is an authorized admin can still have an admin
command executed (see the counterexample). -/
theorem C1_blocked_drop_amended (profile : Int → Option (String × String × Int))
    (db : DB) (m : Message)
    (hblocked : is_user_blocked db m.user_id = true)
    (hnoadmin : is_admin db m.user_id = false) :
    process_message profile db m = ([], db) := by
  have hmsg := handle_message_blocked profile hblocked
  have hA : ∀ c : String, admin_handle_command db m c = (false, [], db) := by
    intro c
    unfold admin_handle_command
    rw [hnoadmin]
    rfl
  by_cases hc : m.is_command = true
  · simp only [process_message]
    rw [if_pos hc]
    split
    · split
      · rw [hA]
        simp [hmsg]
      · exact hmsg
    · split
      · rw [hA]
        simp [hmsg]
      · exact hmsg
  · simp only [process_message]
    rw [if_neg hc]
    exact hmsg

/-- Witness for C1 (amended): a blocked non-admin sender issuing
`"/block 1"` is dropped with no effects and no store change. -/
theorem C1_blocked_drop_witness :
    process_message (fun _ => none) ⟨[⟨7, "А", "Б", none, true⟩], []⟩
      (Message.make 7 "/block 1" none)
    = ([], ⟨[⟨7, "А", "Б", none, true⟩], []⟩) :=
  C1_blocked_drop_amended (fun _ => none) ⟨[⟨7, "А", "Б", none, true⟩], []⟩
    (Message.make 7 "/block 1" none) rfl rfl

/-- C8: a command from a sender who is not an authorized admin is
declined by the administrative handler with no effect and no store
change (for every command string), and falls through to general
command handling; in particular a non-blocked unauthorized sender
issuing `"/block 1"` receives the unknown-command reply, and every
user's blocked flag is exactly as before (no block is performed). -/
theorem C8_unauthorized_block (profile : Int → Option (String × String × Int))
    (db : DB) (m : Message)
    (hadmin : is_admin db m.user_id = false)
    (hblocked : is_user_blocked db m.user_id = false) :
    (∀ c : String, admin_handle_command db m c = (false, [], db))
  ∧ (m.text = "/block 1" →
      process_message profile db m
        = ((ensure_user_exists profile db m.user_id).1
            ++ [.send m.user_id ("❓ Неизвестная команда: /block"
                  ++ "\nИспользуйте /help для справки.") none],
           (ensure_user_exists profile db m.user_id).2)
      ∧ ∀ u : Int, is_user_blocked (process_message profile db m).2 u
          = is_user_blocked db u) := by
  have hA : ∀ c : String, admin_handle_command db m c = (false, [], db) := by
    intro c
    unfold admin_handle_command
    rw [hadmin]
    rfl
  refine ⟨hA, fun htext => ?_⟩
  have hcmd : m.is_command = true := by
    simp [Message.is_command, htext, pyStartsWith]
  have hb1 : is_user_blocked (ensure_user_exists profile db m.user_id).2 m.user_id
      = false := by
    rw [ensure_preserves_blocked]; exact hblocked
  have hmc : mc_handle_command m
      = [.send m.user_id ("❓ Неизвестная команда: /block"
          ++ "\nИспользуйте /help для справки.") none] := by
    simp only [mc_handle_command, Message.get_command, hcmd, if_true, htext]
    rfl
  have hmsg : handle_message profile db m
      = ((ensure_user_exists profile db m.user_id).1
          ++ [.send m.user_id ("❓ Неизвестная команда: /block"
                ++ "\nИспользуйте /help для справки.") none],
         (ensure_user_exists profile db m.user_id).2) := by
    simp only [handle_message, hb1, hcmd, hmc]
    simp
  have hproc : process_message profile db m
      = ((ensure_user_exists profile db m.user_id).1
          ++ [.send m.user_id ("❓ Неизвестная команда: /block"
                ++ "\nИспользуйте /help для справки.") none],
         (ensure_user_exists profile db m.user_id).2) := by
    simp only [process_message, hcmd, if_true, htext, hA]
    simp [hmsg]
  refine ⟨hproc, fun u => ?_⟩
  rw [hproc]
  exact ensure_preserves_blocked profile db m.user_id u

/-- Witness for C8: an unknown, unauthorized, non-blocked sender `5`
issues `"/block 1"` against an empty store. -/
theorem C8_unauthorized_block_witness :
    admin_handle_command ⟨[], []⟩ (Message.make 5 "/block 1" none) "anything"
      = (false, [], ⟨[], []⟩)
  ∧ process_message (fun _ => none) ⟨[], []⟩ (Message.make 5 "/block 1" none)
      = ([.getUserInfo 5,
          .send 5 ("❓ Неизвестная команда: /block" ++ "\nИспользуйте /help для справки.") none],
         ⟨[], []⟩) :=
  ⟨(C8_unauthorized_block (fun _ => none) ⟨[], []⟩ (Message.make 5 "/block 1" none)
      rfl rfl).1 "anything",
   ((C8_unauthorized_block (fun _ => none) ⟨[], []⟩ (Message.make 5 "/block 1" none)
      rfl rfl).2 rfl).1⟩

/-- C10: the administrative block command never blocks an
administrator — when an authorized admin's `/block` argument parses to
the issuer's own id or to any registered admin's id, `_handle_block`
leaves the store unchanged and sends exactly one refusal reply (the
self-block refusal or the admin-block refusal), never a
confirmation. -/
theorem C10_block_never_blocks_admin (db : DB) (m : Message) (s : String) (n : Int)
    (hauth : is_admin db m.user_id = true)
    (hparse : pyParseInt (pyStrip s) = some n)
    (htarget : n = m.user_id ∨ is_admin db n = true) :
    (admin_handle_block db m s).2 = db
  ∧ ((admin_handle_block db m s).1
        = [.send m.user_id "❌ Нельзя заблокировать самого себя!" none]
    ∨ (admin_handle_block db m s).1
        = [.send m.user_id "❌ Нельзя заблокировать администратора!" none]) := by
  have hsne : s ≠ "" := by
    intro h
    subst h
    rw [show pyParseInt (pyStrip "") = none from rfl] at hparse
    cases hparse
  unfold admin_handle_block
  simp only [hsne, if_false, hparse, reduceIte]
  by_cases hself : n = m.user_id
  · simp [hself]
  · have hadm : is_admin db n = true := by
      rcases htarget with h | h
      · exact absurd h hself
      · exact h
    simp [hself, hadm]

/-- Witness for C10: admin `1` tries to block admin `3`. -/
theorem C10_block_never_blocks_admin_witness :
    (admin_handle_block ⟨[], [1, 3]⟩ (Message.make 1 "/block 3" none) "3").2
      = ⟨[], [1, 3]⟩
  ∧ ((admin_handle_block ⟨[], [1, 3]⟩ (Message.make 1 "/block 3" none) "3").1
        = [.send 1 "❌ Нельзя заблокировать самого себя!" none]
    ∨ (admin_handle_block ⟨[], [1, 3]⟩ (Message.make 1 "/block 3" none) "3").1
        = [.send 1 "❌ Нельзя заблокировать администратора!" none]) :=
  C10_block_never_blocks_admin ⟨[], [1, 3]⟩ (Message.make 1 "/block 3" none) "3" 3
    rfl rfl (Or.inr rfl)

/-- C9: whatever string reaches the synthesis engine is exactly the
cleaned, markup-rewritten text, hard-truncated: the first 1000
characters plus an ellipsis when that form exceeds 1000 characters,
unchanged otherwise; and a plain 1500-character input reaches
synthesis as exactly 1000 characters followed by the ellipsis. -/
theorem C9_truncation :
    (∀ t s : String, synthesisInput t = some s →
      s = (if (process_control_marks (clean_text t)).length > 1000
           then (⟨(process_control_marks (clean_text t)).data.take 1000⟩ : String) ++ "..."
           else process_control_marks (clean_text t)))
  ∧ synthesisInput ⟨List.replicate 1500 'a'⟩
      = some ((⟨List.replicate 1000 'a'⟩ : String) ++ "...") := by
  constructor
  · intro t s h
    unfold synthesisInput at h
    by_cases h1 : clean_text t = ""
    · rw [if_pos h1] at h; cases h
    · rw [if_neg h1] at h
      by_cases h2 : pyStrip (clean_text t) = ""
      · rw [if_pos h2] at h; cases h
      · rw [if_neg h2] at h
        exact (Option.some.injEq _ _ ▸ h).symm
  · rfl

/-- Witness for C9 at a short input that is handed over unchanged. -/
theorem C9_truncation_witness :
    ("hi" : String)
      = (if (process_control_marks (clean_text "hi")).length > 1000
         then (⟨(process_control_marks (clean_text "hi")).data.take 1000⟩ : String) ++ "..."
         else process_control_marks (clean_text "hi")) :=
  C9_truncation.1 "hi" "hi" rfl

/-- Witness for C3 (amended): the swallowed reinit failure at a
concrete state, and the propagating unset-credentials path. -/
theorem C3_reinit_error_witness :
    get_updates ⟨some (.vStr "10"), some (.vStr "srv"), some (.vStr "k")⟩
      (.ok ⟨.vStr "s0", .vStr "k0", .vStr "t0"⟩) (.error ()) (.ok [("failed", .vInt 2)])
    = .ok (⟨some (.vStr "10"), some (.vStr "srv"), some (.vStr "k")⟩, [])
  ∧ get_updates ⟨none, none, none⟩ (.error ()) (.error ()) .timeout = .error () :=
  ⟨C3_reinit_error_amended.1 ⟨some (.vStr "10"), some (.vStr "srv"), some (.vStr "k")⟩
      (.ok ⟨.vStr "s0", .vStr "k0", .vStr "t0"⟩) [("failed", .vInt 2)] 2
      rfl rfl rfl rfl (Or.inl rfl),
   C3_reinit_error_amended.2 ⟨none, none, none⟩ (.error ()) .timeout (Or.inr (Or.inr rfl))⟩

end VoiceBot
